import Mathlib

/-!
Verification of the pricing-and-metrics computation and snapshot engine of the
radio-planning repository.  The Lean definitions below are a shallow embedding
of the Python source in `src/app/models.py`, `src/app/api.py` and
`src/app/utils.py`.  Python floats are embedded as rationals (`ℚ`), SQLAlchemy
tables as Lean lists kept in insertion order (`Query.first()` becomes
`List.find?`, `filter_by` becomes `List.filter` over that order), and the
external seasonal-adjustment HTTP service as an oracle of type
`Nat → Nat → Option ℚ` (group id and month to the parsed index value; `none`
is any network/HTTP/parse failure).

Note on the embedded schema: `models.py` declares `PlanStationData` without a
`month` column and `RadioSpot` without an `is_weekend_row` column, yet every
call site in `src/app/api.py` and `src/app/utils.py` writes and reads both
attributes (`capture_station_data_for_plan` passes `month=month`,
`update_plan_seasonal_index` prints `plan_data.month`, `update_spot_count`
filters and constructs with `is_weekend_row=...`, `get_plan` and the export
read `spot.is_weekend_row`).  The class declarations are stale with respect to
their own callers, so the embedding carries both fields.
-/

namespace RadioPlanning

/-- Proleptic Gregorian calendar date, as Python's `datetime.date`. -/
structure Date where
  year : Nat
  month : Nat
  day : Nat
deriving DecidableEq, BEq, Repr

/-- Gregorian leap-year test. -/
def isLeapYear (y : Nat) : Bool :=
  (y % 4 == 0 && y % 100 != 0) || y % 400 == 0

/-- Days in the year strictly before month `m` (1-12). -/
def daysBeforeMonth (leap : Bool) (m : Nat) : Nat :=
  let tbl : List Nat := [0, 31, 59, 90, 120, 151, 181, 212, 243, 273, 304, 334]
  (tbl.getD (m - 1) 0) + (if leap && m > 2 then 1 else 0)

/-- Python's `date.toordinal()`: day 1 is 0001-01-01. -/
def Date.toOrdinal (d : Date) : Nat :=
  let y := d.year - 1
  365 * y + y / 4 - y / 100 + y / 400 + daysBeforeMonth (isLeapYear d.year) d.month + d.day

/-- Python's `date.weekday()`: Monday = 0, ..., Sunday = 6.
0001-01-01 (ordinal 1) was a Monday. -/
def Date.pyWeekday (d : Date) : Nat :=
  (d.toOrdinal + 6) % 7

/-- `spot_date.strftime('%A')`, the English weekday name stored in
`RadioSpot.weekday`. -/
def Date.weekdayName (d : Date) : String :=
  (["Monday", "Tuesday", "Wednesday", "Thursday", "Friday", "Saturday",
    "Sunday"]).getD d.pyWeekday ""

/-- `date.weekday() >= 5`, the weekend test used throughout the source. -/
def Date.isWeekend (d : Date) : Bool :=
  d.pyWeekday ≥ 5

/-- `StationPrice` (models.py lines 45-58): flat time-slot price rows. -/
structure StationPrice where
  station_id : Nat
  time_slot : String
  price : ℚ
  is_weekend : Bool
  is_active : Bool
deriving DecidableEq, Repr

/-- `StationRating` (models.py lines 60-82). -/
structure StationRating where
  station_id : Nat
  time_slot : String
  target_audience : String
  grp : ℚ
  trp : ℚ
  is_weekend : Bool
  is_active : Bool
deriving DecidableEq, Repr

/-- `StationRating.affinity` (models.py lines 74-79): derived `trp / grp`,
0 when `grp` is not positive. -/
def StationRating.affinity (r : StationRating) : ℚ :=
  if r.grp > 0 then r.trp / r.grp else 0

/-- `SeasonalIndex` (models.py lines 84-99).  `group_id = none` is a global
(month-wide) row. -/
structure SeasonalIndexRow where
  id : Nat
  month : Nat
  index_value : ℚ
  group_id : Option Nat
  is_active : Bool
deriving DecidableEq, Repr

/-- `StationZonePrice` (models.py lines 225-242).  The source stores the
duration as a string such as `"30s"` and always compares it through
`int(duration.replace('s', ''))`; the embedding carries that parsed value
directly as `duration : Nat`. -/
structure StationZonePrice where
  station_id : Nat
  zone : Char
  duration : Nat
  price : ℚ
  is_weekend : Bool
deriving DecidableEq, Repr

/-- `RadioStation` (models.py lines 20-43): only the fields the engine
reads. -/
structure RadioStation where
  id : Nat
  group_id : Nat
deriving DecidableEq, Repr

/-- `PlanStationData` (models.py lines 244-270) plus the `month` attribute
that `capture_station_data_for_plan`, `update_plan_seasonal_index` and
`get_plan_captured_data` all use (see the file comment). -/
structure PlanStationData where
  plan_id : Nat
  station_id : Nat
  time_slot : String
  is_weekend : Bool
  month : Nat
  grp : ℚ
  trp : ℚ
  affinity : ℚ
  base_price : ℚ
  seasonal_index : ℚ
deriving DecidableEq, Repr

/-- `RadioSpot` (models.py lines 149-223) plus the `is_weekend_row` attribute
used by `update_spot_count`, `get_plan` and the export (see the file
comment).  Fields the engine never reads (`clip_id`, `special_position`,
discount-amount columns, timestamps) are omitted.  Defaults are the column
defaults of models.py. -/
structure RadioSpot where
  plan_id : Nat
  station_id : Nat
  date : Date
  time_slot : String
  weekday : String := ""
  is_weekend_row : Bool := false
  spot_count : Int := 1
  clip_duration : Nat := 0
  grp : ℚ := 0
  trp : ℚ := 0
  affinity : ℚ := 0
  base_price : ℚ := 0
  seasonal_index : ℚ := 1
  price_with_index : ℚ := 0
  final_price : ℚ := 0
  price_per_trp : ℚ := 0
deriving DecidableEq, Repr

/-- `RadioClip` (models.py lines 137-147). -/
structure RadioClip where
  name : String
  duration : Nat
deriving DecidableEq, Repr

/-- `RadioPlan` (models.py lines 107-135): the fields the engine reads. -/
structure RadioPlan where
  id : Nat
  start_date : Date
  end_date : Date
  target_audience : String
  our_discount : ℚ
  client_discount : ℚ
  selected_stations : List RadioStation
  clips : List RadioClip
deriving DecidableEq, Repr

/-- The persistent store: one list per table, in insertion order. -/
structure DB where
  stations : List RadioStation
  station_prices : List StationPrice
  zone_prices : List StationZonePrice
  ratings : List StationRating
  seasonal_indices : List SeasonalIndexRow
  plan_station_data : List PlanStationData
  spots : List RadioSpot
deriving DecidableEq, Repr

/-- Update the first list element satisfying `p` (SQLAlchemy
`query.first()` followed by attribute mutation and commit). -/
def updateFirst (p : α → Bool) (f : α → α) : List α → List α
  | [] => []
  | a :: as => if p a then f a :: as else a :: updateFirst p f as

/-- Remove the first list element satisfying `p` (`query.first()` followed by
`session.delete`). -/
def removeFirst (p : α → Bool) : List α → List α
  | [] => []
  | a :: as => if p a then as else a :: removeFirst p as

/-- `generate_time_slots` (utils.py lines 115-127): half-hour slots from
07:00 to 20:00, 26 slots. -/
def twoDigits (n : Nat) : String :=
  if n < 10 then "0" ++ toString n else toString n

/-- The canonical time-slot strings of `generate_time_slots`. -/
def generate_time_slots : List String :=
  (List.range' 7 13).flatMap fun hour =>
    let a := twoDigits hour ++ ":00-" ++ twoDigits hour ++ ":30"
    if hour < 19 then
      [a, twoDigits hour ++ ":30-" ++ twoDigits (hour + 1) ++ ":00"]
    else if hour == 19 then
      [a, "19:30-20:00"]
    else
      [a]

/-- The characters of a string before the first occurrence of `c`:
Python's `s.split(c)[0]`. -/
def takeBefore (c : Char) : List Char → List Char
  | [] => []
  | x :: xs => if x = c then [] else x :: takeBefore c xs

/-- Python's `int()` on a decimal string: the value when the string is
nonempty and all digits (signs and whitespace, which Python also accepts,
never occur in the slot strings), failure — a `ValueError` — otherwise. -/
def parseNatDigits (cs : List Char) : Option Nat :=
  if cs ≠ [] ∧ cs.all (fun c => c.isDigit) then
    some (cs.foldl (fun n c => 10 * n + (c.toNat - 48)) 0)
  else none

/-- Start-hour parse shared by `get_zone_for_time_slot` (utils.py lines
645-648) and api.py lines 531-534: `int(time_slot.split('-')[0].split(':')[0])`.
`none` models the `ValueError` Python raises on a malformed slot string. -/
def parseStartHour (time_slot : String) : Option Nat :=
  parseNatDigits (takeBefore ':' (takeBefore '-' time_slot.data))

/-- `get_zone_for_time_slot` (utils.py lines 645-661, duplicated at api.py
lines 531-555): weekend is always zone D; otherwise the start hour picks
A/B/C/B/D.  `none` models the exception on a malformed slot. -/
def get_zone_for_time_slot (time_slot : String) (is_weekend : Bool) : Option Char :=
  match parseStartHour time_slot with
  | none => none
  | some hour =>
    some <|
      if is_weekend then 'D'
      else if 7 ≤ hour ∧ hour < 10 then 'A'
      else if 10 ≤ hour ∧ hour < 12 then 'B'
      else if 12 ≤ hour ∧ hour < 16 then 'C'
      else if 16 ≤ hour ∧ hour < 18 then 'B'
      else 'D'

/-- The loop body of the duration search (api.py lines 574-581, repeated at
utils.py lines 617-622): keep the first zone price seen whose duration is at
least the clip duration and strictly smaller than the current best. -/
def zpStep (clip_duration : Nat) (best : Option StationZonePrice)
    (zp : StationZonePrice) : Option StationZonePrice :=
  if clip_duration ≤ zp.duration then
    match best with
    | none => some zp
    | some b => if zp.duration < b.duration then some zp else some b
  else best

/-- The `best_zone_price` computed by the loop in api.py lines 572-581 /
utils.py lines 617-622 over the fetched zone-price rows. -/
def best_zone_price (clip_duration : Nat) (zps : List StationZonePrice) :
    Option StationZonePrice :=
  zps.foldl (zpStep clip_duration) none

/-- Zone-price rows fetched for one station, zone and weekend flag
(api.py lines 564-568, utils.py lines 610-614; `StationZonePrice` has no
`is_active` column, so there is no active filter). -/
def zonePricesFor (db : DB) (station_id : Nat) (zone : Char)
    (is_weekend : Bool) : List StationZonePrice :=
  db.zone_prices.filter fun zp =>
    zp.station_id == station_id && zp.zone == zone && zp.is_weekend == is_weekend

/-- Result of `get_station_price_for_duration`: the `price` and `source` tag
of the JSON response. -/
structure PriceResult where
  price : ℚ
  source : String
deriving DecidableEq, Repr

/-- The active flat-price filter shared by the fallback of
`get_station_price_for_duration` (api.py lines 593-597) and
`RadioStation.get_current_price` (models.py lines 36-43). -/
def activeFlatPriceKey (station_id : Nat) (time_slot : String)
    (is_weekend : Bool) (p : StationPrice) : Bool :=
  p.station_id == station_id && p.time_slot == time_slot &&
    p.is_weekend == is_weekend && p.is_active

/-- `get_station_price_for_duration` (api.py lines 517-606): zone/duration
pricing first, then the active flat `StationPrice`, then price 0 tagged
`not_found`.  `none` models the 404 on a missing station or the exception on
an unparseable time slot. -/
def get_station_price_for_duration (db : DB) (station_id : Nat)
    (time_slot : String) (duration : Nat) (is_weekend : Bool) :
    Option PriceResult :=
  if db.stations.any (fun s => s.id == station_id) then
    match get_zone_for_time_slot time_slot is_weekend with
    | none => none
    | some zone =>
      match best_zone_price duration (zonePricesFor db station_id zone is_weekend) with
      | some zp => some ⟨zp.price, "zone_price"⟩
      | none =>
        match db.station_prices.find? (activeFlatPriceKey station_id time_slot is_weekend) with
        | some p => some ⟨p.price, "station_price_fallback"⟩
        | none => some ⟨0, "not_found"⟩
  else none

/-- `update_station_time_slot_price` (api.py lines 666-718): update the first
`StationPrice` row matching (station, time_slot, is_weekend), reactivating
it, or insert a new active row. -/
def stationPriceKey (station_id : Nat) (time_slot : String)
    (is_weekend : Bool) (p : StationPrice) : Bool :=
  p.station_id == station_id && p.time_slot == time_slot && p.is_weekend == is_weekend

def update_station_time_slot_price (db : DB) (station_id : Nat)
    (time_slot : String) (is_weekend : Bool) (price : ℚ) : DB :=
  let key := stationPriceKey station_id time_slot is_weekend
  if db.station_prices.any key then
    let updated := updateFirst key (fun p => { p with price := price, is_active := true }) db.station_prices
    { db with station_prices := updated }
  else
    { db with station_prices :=
        db.station_prices ++ [⟨station_id, time_slot, price, is_weekend, true⟩] }

/-- `update_station_zone_price` (api.py lines 609-664): update the first
`StationZonePrice` row matching (station, zone, duration, is_weekend) or
insert a new one. -/
def zonePriceUpdateKey (station_id : Nat) (zone : Char) (duration : Nat)
    (is_weekend : Bool) (zp : StationZonePrice) : Bool :=
  zp.station_id == station_id && zp.zone == zone && zp.duration == duration &&
    zp.is_weekend == is_weekend

def update_station_zone_price (db : DB) (station_id : Nat) (zone : Char)
    (duration : Nat) (is_weekend : Bool) (price : ℚ) : DB :=
  let key := zonePriceUpdateKey station_id zone duration is_weekend
  if db.zone_prices.any key then
    let updated := updateFirst key (fun zp => { zp with price := price }) db.zone_prices
    { db with zone_prices := updated }
  else
    { db with zone_prices :=
        db.zone_prices ++ [⟨station_id, zone, duration, price, is_weekend⟩] }

/-- `update_station_rating` (api.py lines 720-776): update the first
`StationRating` row matching (station, time_slot, is_weekend), reactivating
it, or insert a new active row (the route sets no `target_audience`, so the
model column default, the empty value here, applies on insert). -/
def ratingUpdateKey (station_id : Nat) (time_slot : String)
    (is_weekend : Bool) (r : StationRating) : Bool :=
  r.station_id == station_id && r.time_slot == time_slot && r.is_weekend == is_weekend

def update_station_rating (db : DB) (station_id : Nat) (time_slot : String)
    (is_weekend : Bool) (grp trp : ℚ) : DB :=
  let key := ratingUpdateKey station_id time_slot is_weekend
  if db.ratings.any key then
    let updated := updateFirst key (fun r => { r with grp := grp, trp := trp, is_active := true }) db.ratings
    { db with ratings := updated }
  else
    { db with ratings :=
        db.ratings ++ [⟨station_id, time_slot, "", grp, trp, is_weekend, true⟩] }

/-- `update_seasonal_index` (api.py lines 506-515): set `index_value` on the
`SeasonalIndex` row with the given id; a missing id (`get_or_404`) leaves the
store unchanged. -/
def update_seasonal_index (db : DB) (index_id : Nat) (index_value : ℚ) : DB :=
  let updated := updateFirst (fun i => i.id == index_id) (fun i => { i with index_value := index_value }) db.seasonal_indices
  { db with seasonal_indices := updated }

/-- `get_live_seasonal_index` (utils.py lines 519-549) with the external
seasonal-adjustments service abstracted as `ext`: the parsed value for
(group, month) when the fetch, the HTML scrape and the float parse all
succeed, else the 1.0 default. -/
def get_live_seasonal_index (ext : Nat → Nat → Option ℚ)
    (group_id month : Nat) : ℚ :=
  (ext group_id month).getD 1

/-- The month enumeration of `capture_station_data_for_plan` (utils.py lines
570-580): walk first-of-month dates from the start date's month while they do
not exceed `end_date`, recording only the calendar month number.  A
first-of-month date `(y, m, 1)` is `≤ end_date` exactly when `(y, m)` is
lexicographically at most `(end_date.year, end_date.month)` (valid dates have
`day ≥ 1`), so the walk runs over consecutive absolute month indices. -/
def months_in_plan (start_date end_date : Date) : List Nat :=
  let si := 12 * start_date.year + (start_date.month - 1)
  let ei := 12 * end_date.year + (end_date.month - 1)
  if si > ei then []
  else (List.range (ei - si + 1)).map fun i => (si + i) % 12 + 1

/-- The clip duration used for price resolution (utils.py lines 603-606 and
api.py lines 374-387): the first clip's duration, defaulting to 30 when the
plan has no clips; the spot-creation path additionally treats a clip whose
duration is 0 (Python-falsy) as absent. -/
def planClipDuration (plan : RadioPlan) : Nat :=
  match plan.clips.head? with
  | some c => c.duration
  | none => 30

/-- One captured row of `capture_station_data_for_plan` (utils.py lines
591-641): rating by (station, slot, plan audience, weekend, active),
base price via the zone/duration path only (zero when absent), and the
month's resolved seasonal index.  The `none` zone branch is unreachable for
the generated slots (all of them parse); the source would raise there. -/
def capturedRowFor (db : DB) (plan : RadioPlan) (station : RadioStation)
    (month : Nat) (seasonal_index : ℚ) (time_slot : String)
    (is_weekend : Bool) : PlanStationData :=
  let rating := db.ratings.find? fun r =>
    r.station_id == station.id && r.time_slot == time_slot &&
      r.target_audience == plan.target_audience &&
      r.is_weekend == is_weekend && r.is_active
  let base_price : ℚ :=
    match get_zone_for_time_slot time_slot is_weekend with
    | some zone =>
      match best_zone_price (planClipDuration plan)
          (zonePricesFor db station.id zone is_weekend) with
      | some zp => zp.price
      | none => 0
    | none => 0
  { plan_id := plan.id
    station_id := station.id
    time_slot := time_slot
    is_weekend := is_weekend
    month := month
    grp := match rating with | some r => r.grp | none => 0
    trp := match rating with | some r => r.trp | none => 0
    affinity := match rating with | some r => r.affinity | none => 0
    base_price := base_price
    seasonal_index := seasonal_index }

/-- The rows appended by `capture_station_data_for_plan` (utils.py lines
551-643), in loop order: station, then month, then time slot, then
weekday/weekend. -/
def captureNewRows (ext : Nat → Nat → Option ℚ) (db : DB)
    (plan : RadioPlan) : List PlanStationData :=
  plan.selected_stations.flatMap fun station =>
    (months_in_plan plan.start_date plan.end_date).flatMap fun month =>
      let seasonal_index := get_live_seasonal_index ext station.group_id month
      generate_time_slots.flatMap fun time_slot =>
        [false, true].map fun is_weekend =>
          capturedRowFor db plan station month seasonal_index time_slot is_weekend

/-- `capture_station_data_for_plan` (utils.py lines 551-643): append the
dense cross-product of captured rows for the plan. -/
def capture_station_data_for_plan (ext : Nat → Nat → Option ℚ) (db : DB)
    (plan : RadioPlan) : DB :=
  { db with plan_station_data := db.plan_station_data ++ captureNewRows ext db plan }

/-- The natural key of a spot used by `update_spot_count`'s initial lookup
(api.py lines 351-357). -/
def spotKey (plan_id station_id : Nat) (time_slot : String) (date : Date)
    (is_weekend_row : Bool) (s : RadioSpot) : Bool :=
  s.plan_id == plan_id && s.station_id == station_id && s.time_slot == time_slot &&
    s.date == date && s.is_weekend_row == is_weekend_row

/-- The captured-data filter of `update_spot_count` (api.py lines 406-411).
The source filters by plan, station, time slot and weekend flag only — the
month of the spot's date is NOT part of the filter — and takes `.first()`,
i.e. the earliest-inserted matching row. -/
def capturedKey (plan_id station_id : Nat) (time_slot : String)
    (is_weekend : Bool) (c : PlanStationData) : Bool :=
  c.plan_id == plan_id && c.station_id == station_id &&
    c.time_slot == time_slot && c.is_weekend == is_weekend

/-- The spot built by the create branch of `update_spot_count` when a captured
row was found (api.py lines 389-426): per-unit grp/trp scaled by the new
count, affinity/base price/seasonal index copied, then the sequential
discount computation, and `price_per_trp = base_price / trp` (no division by
100 here) only when the scaled trp is positive — otherwise the column default
0 stands. -/
def spotFromCaptured (plan : RadioPlan) (station_id : Nat)
    (spot_date : Date) (time_slot : String) (new_count : Int)
    (is_weekend_row : Bool) (clip_duration : Nat) (cd : PlanStationData) :
    RadioSpot :=
  let grp := cd.grp * (new_count : ℚ)
  let trp := cd.trp * (new_count : ℚ)
  let price_with_index := cd.base_price * cd.seasonal_index
  let price_after_our := price_with_index * (1 - plan.our_discount / 100)
  let final_price := price_after_our * (1 - plan.client_discount / 100)
  { plan_id := plan.id
    station_id := station_id
    date := spot_date
    time_slot := time_slot
    weekday := spot_date.weekdayName
    is_weekend_row := is_weekend_row
    spot_count := new_count
    clip_duration := clip_duration
    grp := grp
    trp := trp
    affinity := cd.affinity
    base_price := cd.base_price
    seasonal_index := cd.seasonal_index
    final_price := final_price
    price_per_trp := if trp > 0 then cd.base_price / trp else 0 }

/-- The spot built by the create branch of `update_spot_count` when no
captured row exists (api.py lines 427-435): every metric is zero-filled and
the seasonal index is 1.0; no live lookup happens. -/
def spotFromDefaults (plan : RadioPlan) (station_id : Nat)
    (spot_date : Date) (time_slot : String) (new_count : Int)
    (is_weekend_row : Bool) (clip_duration : Nat) : RadioSpot :=
  { plan_id := plan.id
    station_id := station_id
    date := spot_date
    time_slot := time_slot
    weekday := spot_date.weekdayName
    is_weekend_row := is_weekend_row
    spot_count := new_count
    clip_duration := clip_duration
    grp := 0
    trp := 0
    affinity := 0
    base_price := 0
    seasonal_index := 1
    final_price := 0
    price_per_trp := 0 }

/-- The clip duration of the spot-creation branch (api.py lines 374-387):
the plan's first clip's duration, except that an absent first clip or a 0
(Python-falsy) duration falls back to 30. -/
def spotClipDuration (plan : RadioPlan) : Nat :=
  match plan.clips.head? with
  | some c => if c.duration ≠ 0 then c.duration else 30
  | none => 30

/-- The whole create branch of `update_spot_count` (api.py lines 371-438):
clip duration from the plan's first clip, weekend flag from the spot's date,
then the captured lookup that ignores the month. -/
def createdSpot (db : DB) (plan : RadioPlan) (station_id : Nat)
    (time_slot : String) (spot_date : Date) (new_count : Int)
    (is_weekend_row : Bool) : RadioSpot :=
  match db.plan_station_data.find?
      (capturedKey plan.id station_id time_slot spot_date.isWeekend) with
  | some cd =>
    spotFromCaptured plan station_id spot_date time_slot new_count
      is_weekend_row (spotClipDuration plan) cd
  | none =>
    spotFromDefaults plan station_id spot_date time_slot new_count
      is_weekend_row (spotClipDuration plan)

/-- Outcome of the `update_spot_count` endpoint: the 404 on an unknown
station, the delete acknowledgement, or the saved (updated or created) spot
together with the new store. -/
inductive UpdateOutcome where
  | stationNotFound
  | removed (db : DB)
  | saved (db : DB) (spot : RadioSpot)
deriving DecidableEq, Repr

/-- The spot reported back by a successful save (api.py lines 440-456). -/
def UpdateOutcome.savedSpot : UpdateOutcome → Option RadioSpot
  | .saved _ s => some s
  | _ => none

/-- The store after the operation, when it committed. -/
def UpdateOutcome.newDB : UpdateOutcome → Option DB
  | .saved db _ => some db
  | .removed db => some db
  | .stationNotFound => none

/-- The persisted spots after the operation (unchanged spots on the 404
path). -/
def UpdateOutcome.spotsAfter (orig : DB) : UpdateOutcome → List RadioSpot
  | .saved db _ => db.spots
  | .removed db => db.spots
  | .stationNotFound => orig.spots

/-- `update_spot_count` (api.py lines 305-465): 404 on a missing station;
a non-positive count deletes the first spot matching the natural key (if
any); a positive count either mutates only `spot_count` of the first
matching spot or appends the spot built by the create branch. -/
def update_spot_count (db : DB) (plan : RadioPlan) (station_id : Nat)
    (time_slot : String) (spot_date : Date) (new_count : Int)
    (is_weekend_row : Bool) : UpdateOutcome :=
  if db.stations.any (fun s => s.id == station_id) then
    let key := spotKey plan.id station_id time_slot spot_date is_weekend_row
    if new_count ≤ 0 then
      .removed { db with spots := removeFirst key db.spots }
    else
      match db.spots.find? key with
      | some s0 =>
        let s := { s0 with spot_count := new_count }
        .saved { db with spots := updateFirst key (fun t => { t with spot_count := new_count }) db.spots } s
      | none =>
        let s := createdSpot db plan station_id time_slot spot_date new_count is_weekend_row
        .saved { db with spots := db.spots ++ [s] } s
  else .stationNotFound

/-- `RadioStation.get_current_price` (models.py lines 36-43): first active
flat price for (time slot, weekend flag), else 0. -/
def get_current_price (db : DB) (station_id : Nat) (time_slot : String)
    (is_weekend : Bool) : ℚ :=
  match db.station_prices.find? (activeFlatPriceKey station_id time_slot is_weekend) with
  | some p => p.price
  | none => 0

/-- `RadioSpot.calculate_price` (models.py lines 187-219): flat price from
the station, stored seasonal index (group-specific first — skipped when the
group id is 0, which is Python-falsy — then global; the spot's current
`seasonal_index` survives when neither exists), sequential discounts, and
`price_per_trp = base_price / trp / 100` only when `trp > 0` (the previous
value survives otherwise). -/
def calculate_price (db : DB) (station : RadioStation) (spot : RadioSpot)
    (our_discount client_discount : ℚ) : RadioSpot :=
  let is_weekend := spot.date.isWeekend
  let base_price := get_current_price db station.id spot.time_slot is_weekend
  let month := spot.date.month
  let groupSeasonal :=
    if station.group_id ≠ 0 then
      db.seasonal_indices.find? fun i =>
        i.month == month && i.group_id == some station.group_id && i.is_active
    else none
  let seasonal :=
    match groupSeasonal with
    | some s => some s
    | none =>
      db.seasonal_indices.find? fun i =>
        i.month == month && i.group_id == none && i.is_active
  let seasonal_index :=
    match seasonal with
    | some s => s.index_value
    | none => spot.seasonal_index
  let price_with_index := base_price * seasonal_index
  let price_after_our := price_with_index * (1 - our_discount / 100)
  let final_price := price_after_our * (1 - client_discount / 100)
  let price_per_trp :=
    if spot.trp > 0 then base_price / spot.trp / 100 else spot.price_per_trp
  { spot with
      base_price := base_price
      seasonal_index := seasonal_index
      price_with_index := price_with_index
      final_price := final_price
      price_per_trp := price_per_trp }

/-- `calculate_spot_metrics` (utils.py lines 151-171): live `StationRating`
lookup (grp/trp scaled by the count, affinity copied; nothing changes when
the rating is absent), then `RadioSpot.calculate_price` with the plan's
discounts. -/
def calculate_spot_metrics (db : DB) (plan : RadioPlan)
    (station : RadioStation) (spot : RadioSpot) : RadioSpot :=
  let is_weekend := spot.date.isWeekend
  let rating := db.ratings.find? fun r =>
    r.station_id == spot.station_id && r.time_slot == spot.time_slot &&
      r.target_audience == plan.target_audience &&
      r.is_weekend == is_weekend && r.is_active
  let spot' :=
    match rating with
    | some r =>
      { spot with
          grp := r.grp * (spot.spot_count : ℚ)
          trp := r.trp * (spot.spot_count : ℚ)
          affinity := r.affinity }
    | none => spot
  calculate_price db station spot' plan.our_discount plan.client_discount

/-- `add_spot` (api.py lines 276-303): build a spot from the request payload
(`spot_count` defaults to 1 but is stored as given, with no positivity
check; `is_weekend_row` is never set, so the embedded default `false`
stands), run `calculate_spot_metrics`, and persist it.  `none` models the
failure when the station id does not resolve. -/
def add_spot (db : DB) (plan : RadioPlan) (station_id : Nat)
    (date : Date) (time_slot : String) (spot_count : Int)
    (clip_duration : Nat) : Option (DB × RadioSpot) :=
  match db.stations.find? (fun s => s.id == station_id) with
  | none => none
  | some station =>
    let spot0 : RadioSpot :=
      { plan_id := plan.id
        station_id := station_id
        date := date
        time_slot := time_slot
        weekday := date.weekdayName
        spot_count := spot_count
        clip_duration := clip_duration }
    let spot := calculate_spot_metrics db plan station spot0
    some ({ db with spots := db.spots ++ [spot] }, spot)

/-- From the spec's words (§4.4, §8): the number of distinct calendar month
numbers touched by the inclusive date range, used to compare against the
capture loop's actual month enumeration. -/
def distinctMonthsSpanned (start_date end_date : Date) : Nat :=
  ((months_in_plan start_date end_date).dedup).length

/-- Boolean check that every stored spot has a positive count. -/
def allPositiveCounts (l : List RadioSpot) : Bool :=
  l.all fun s => decide (0 < s.spot_count)

/-! ### Concrete states used to evaluate the engine -/

/-- External seasonal-adjustment service that is unreachable (every fetch
fails). -/
def extNone : Nat → Nat → Option ℚ := fun _ _ => none

/-- A station with id 1 in group 1. -/
def stationW : RadioStation := ⟨1, 1⟩

/-- A store holding only station 1. -/
def dbEmpty : DB := ⟨[stationW], [], [], [], [], [], []⟩

/-- A 13-month plan (2024-01-01 to 2025-01-31) for station 1. -/
def planC5 : RadioPlan :=
  ⟨1, ⟨2024, 1, 1⟩, ⟨2025, 1, 31⟩, "All", 0, 0, [stationW], []⟩

/-- Stored January seasonal index 1.1 for group 1. -/
def siJan : SeasonalIndexRow := ⟨1, 1, 11 / 10, some 1, true⟩

/-- Stored global February seasonal index 0.95. -/
def siFebGlobal : SeasonalIndexRow := ⟨2, 2, 19 / 20, none, true⟩

/-- Store with the two stored seasonal indices of the §8 scenario. -/
def dbC3 : DB := ⟨[stationW], [], [], [], [siJan, siFebGlobal], [], []⟩

/-- The §8 plan: Jan 15 to Feb 10 for station 1 (group 1). -/
def planC3 : RadioPlan :=
  ⟨4, ⟨2025, 1, 15⟩, ⟨2025, 2, 10⟩, "All", 0, 0, [stationW], []⟩

/-- A one-day (single-month) plan used to instantiate capture rows. -/
def planC3w : RadioPlan :=
  ⟨3, ⟨2025, 1, 5⟩, ⟨2025, 1, 5⟩, "All", 0, 0, [stationW], []⟩

/-- The first row capture produces for `planC3w` over `dbEmpty` with the
external service down. -/
def rowC3w : PlanStationData := ⟨3, 1, "07:00-07:30", false, 1, 0, 0, 0, 0, 1⟩

/-- January captured row (month 1, seasonal index 1.1) for plan 2. -/
def cdJan : PlanStationData :=
  ⟨2, 1, "07:00-07:30", false, 1, 2, 1, 1 / 2, 100, 11 / 10⟩

/-- February captured row (month 2, seasonal index 0.95) for plan 2. -/
def cdFeb : PlanStationData :=
  ⟨2, 1, "07:00-07:30", false, 2, 2, 1, 1 / 2, 100, 19 / 20⟩

/-- A plan (id 2) spanning January and February 2025 with no discounts. -/
def planC2 : RadioPlan :=
  ⟨2, ⟨2025, 1, 15⟩, ⟨2025, 2, 10⟩, "All", 0, 0, [stationW], []⟩

/-- Store with the two month-specific captured rows for plan 2. -/
def dbC2 : DB := ⟨[stationW], [], [], [], [], [cdJan, cdFeb], []⟩

/-- An existing spot of plan 2 with count 1 and metrics from `cdJan`. -/
def spotC4 : RadioSpot :=
  { plan_id := 2, station_id := 1, date := ⟨2025, 1, 15⟩,
    time_slot := "07:00-07:30", weekday := "Wednesday", is_weekend_row := false,
    spot_count := 1, clip_duration := 30, grp := 2, trp := 1, affinity := 1 / 2,
    base_price := 100, seasonal_index := 11 / 10, final_price := 110,
    price_per_trp := 100 }

/-- `dbC2` with the existing spot `spotC4`. -/
def dbC4 : DB := ⟨[stationW], [], [], [], [], [cdJan, cdFeb], [spotC4]⟩

/-- Captured row for the discount example: base price 100, index 1.2. -/
def cdW : PlanStationData :=
  ⟨5, 1, "07:00-07:30", false, 1, 2, 1, 1 / 2, 100, 6 / 5⟩

/-- Plan 5 with sequential discounts of 10% and 10%. -/
def planW : RadioPlan :=
  ⟨5, ⟨2025, 1, 15⟩, ⟨2025, 2, 10⟩, "All", 10, 10, [stationW], []⟩

/-- Store holding the captured row `cdW`. -/
def dbW : DB := ⟨[stationW], [], [], [], [], [cdW], []⟩

/-- 2025-01-15, a Wednesday (weekday row). -/
def dateW : Date := ⟨2025, 1, 15⟩

/-- Captured row for the price-per-trp example: base 90, per-unit trp 5. -/
def cdW7 : PlanStationData :=
  ⟨7, 1, "07:00-07:30", false, 1, 2, 5, 1 / 2, 90, 1⟩

/-- Plan 7 with no discounts. -/
def planW7 : RadioPlan :=
  ⟨7, ⟨2025, 1, 15⟩, ⟨2025, 1, 20⟩, "All", 0, 0, [stationW], []⟩

/-- Store holding the captured row `cdW7`. -/
def dbW7 : DB := ⟨[stationW], [], [], [], [], [cdW7], []⟩

/-- A live rating for station 1 (grp 3, trp 2). -/
def ratingW9 : StationRating := ⟨1, "07:00-07:30", "All", 3, 2, false, true⟩

/-- A live active flat price of 50 for station 1. -/
def flatW9 : StationPrice := ⟨1, "07:00-07:30", 50, false, true⟩

/-- Store with live rating and price data but no captured snapshot. -/
def dbW9 : DB := ⟨[stationW], [flatW9], [], [ratingW9], [], [], []⟩

/-- Plan 9 with no discounts. -/
def planW9 : RadioPlan :=
  ⟨9, ⟨2025, 1, 13⟩, ⟨2025, 1, 20⟩, "All", 0, 0, [stationW], []⟩

/-- Zone prices of durations 15s, 30s, 60s in zone A for station 1. -/
def dbW8 : DB :=
  ⟨[stationW], [],
    [⟨1, 'A', 15, 10, false⟩, ⟨1, 'A', 30, 20, false⟩, ⟨1, 'A', 60, 30, false⟩],
    [], [], [], []⟩

/-! ### Helper lemmas -/

theorem mem_removeFirst {α} {p : α → Bool} {l : List α} {x : α}
    (hx : x ∈ removeFirst p l) : x ∈ l := by
  induction l with
  | nil => simp [removeFirst] at hx
  | cons a as ih =>
    by_cases h : p a
    · simp only [removeFirst, h, if_true] at hx
      exact List.mem_cons_of_mem _ hx
    · simp only [removeFirst, h, if_false] at hx
      cases hx with
      | head => exact List.mem_cons_self _ _
      | tail _ h1 => exact List.mem_cons_of_mem _ (ih h1)

theorem mem_updateFirst {α} {p : α → Bool} {f : α → α} {l : List α} {x : α}
    (hx : x ∈ updateFirst p f l) : x ∈ l ∨ ∃ y ∈ l, x = f y := by
  induction l with
  | nil => simp [updateFirst] at hx
  | cons a as ih =>
    by_cases h : p a
    · simp only [updateFirst, h, if_true] at hx
      cases hx with
      | head => exact Or.inr ⟨a, List.mem_cons_self _ _, rfl⟩
      | tail _ h1 => exact Or.inl (List.mem_cons_of_mem _ h1)
    · simp only [updateFirst, h, if_false] at hx
      cases hx with
      | head => exact Or.inl (List.mem_cons_self _ _)
      | tail _ h1 =>
        rcases ih h1 with h2 | ⟨y, hy, hxy⟩
        · exact Or.inl (List.mem_cons_of_mem _ h2)
        · exact Or.inr ⟨y, List.mem_cons_of_mem _ hy, hxy⟩

theorem length_flatMap_const {α β} (l : List α) (f : α → List β) (k : Nat)
    (h : ∀ a ∈ l, (f a).length = k) : (l.flatMap f).length = l.length * k := by
  induction l with
  | nil => simp
  | cons a as ih =>
    simp only [List.flatMap_cons, List.length_append, List.length_cons,
      h a (List.mem_cons_self _ _), ih fun b hb => h b (List.mem_cons_of_mem _ hb)]
    ring

theorem zpStep_none_eq (d : Nat) (zp : StationZonePrice) (h : d ≤ zp.duration) :
    zpStep d none zp = some zp := by
  simp [zpStep, h]

theorem zpStep_some_eq (d : Nat) (b zp : StationZonePrice) (h : d ≤ zp.duration) :
    zpStep d (some b) zp = some (if zp.duration < b.duration then zp else b) := by
  simp only [zpStep, if_pos h]
  split <;> rfl

theorem zpStep_skip_eq (d : Nat) (best : Option StationZonePrice)
    (zp : StationZonePrice) (h : ¬ d ≤ zp.duration) : zpStep d best zp = best := by
  simp [zpStep, h]

/-- Invariant-carrying characterization of the duration-search loop: starting
from an accumulator that is itself a candidate (duration ≥ requested) when
present, the loop returns `none` exactly when the accumulator was empty and
no row qualifies, and otherwise returns a qualifying row that is minimal
among the qualifying rows seen and no worse than the accumulator. -/
theorem best_zone_price_loop (d : Nat) (l : List StationZonePrice) :
    ∀ acc : Option StationZonePrice, (∀ a, acc = some a → d ≤ a.duration) →
      (l.foldl (zpStep d) acc = none → acc = none ∧ ∀ zp ∈ l, zp.duration < d) ∧
      (∀ b, l.foldl (zpStep d) acc = some b →
        d ≤ b.duration ∧ (b ∈ l ∨ acc = some b) ∧
        (∀ zp ∈ l, d ≤ zp.duration → b.duration ≤ zp.duration) ∧
        (∀ a, acc = some a → b.duration ≤ a.duration)) := by
  induction l with
  | nil =>
    intro acc hacc
    refine ⟨fun h => ⟨by simpa using h, by simp⟩, fun b hb => ?_⟩
    simp only [List.foldl_nil] at hb
    exact ⟨hacc b hb, Or.inr hb, by simp, fun a ha => by rw [ha] at hb; cases hb; exact le_refl _⟩
  | cons zp rest ih =>
    intro acc hacc
    have hstep : ∀ a, zpStep d acc zp = some a → d ≤ a.duration := by
      intro a ha
      by_cases hd : d ≤ zp.duration
      · cases hacc0 : acc with
        | none =>
          rw [hacc0, zpStep_none_eq d zp hd] at ha
          cases ha; exact hd
        | some b =>
          rw [hacc0, zpStep_some_eq d b zp hd] at ha
          cases ha
          by_cases hlt : zp.duration < b.duration
          · rw [if_pos hlt]; exact hd
          · rw [if_neg hlt]; exact hacc b hacc0
      · rw [zpStep_skip_eq d acc zp hd] at ha
        exact hacc a ha
    have hdrop : ∀ a, acc = some a →
        ∃ c, zpStep d acc zp = some c ∧ c.duration ≤ a.duration := by
      intro a ha
      by_cases hd : d ≤ zp.duration
      · refine ⟨if zp.duration < a.duration then zp else a,
          by rw [ha, zpStep_some_eq d a zp hd], ?_⟩
        by_cases hlt : zp.duration < a.duration
        · rw [if_pos hlt]; omega
        · rw [if_neg hlt]
      · exact ⟨a, by rw [zpStep_skip_eq d acc zp hd, ha], le_refl _⟩
    have hhead : d ≤ zp.duration →
        ∃ c, zpStep d acc zp = some c ∧ c.duration ≤ zp.duration := by
      intro hd
      cases hacc0 : acc with
      | none => exact ⟨zp, zpStep_none_eq d zp hd, le_refl _⟩
      | some b =>
        refine ⟨if zp.duration < b.duration then zp else b,
          zpStep_some_eq d b zp hd, ?_⟩
        by_cases hlt : zp.duration < b.duration
        · rw [if_pos hlt]
        · rw [if_neg hlt]; omega
    obtain ⟨ihnone, ihsome⟩ := ih (zpStep d acc zp) hstep
    constructor
    · intro h
      simp only [List.foldl_cons] at h
      obtain ⟨hacc', hrest⟩ := ihnone h
      by_cases hd : d ≤ zp.duration
      · obtain ⟨c, hc, _⟩ := hhead hd
        rw [hc] at hacc'; cases hacc'
      · have haccn : acc = none := by
          cases hacc0 : acc with
          | none => rfl
          | some b =>
            obtain ⟨c, hc, _⟩ := hdrop b hacc0
            rw [hc] at hacc'; cases hacc'
        refine ⟨haccn, fun q hq => ?_⟩
        rcases List.mem_cons.mp hq with hq | hq
        · subst hq; omega
        · exact hrest q hq
    · intro b hb
      simp only [List.foldl_cons] at hb
      obtain ⟨hbd, hbmem, hbmin, hbacc⟩ := ihsome b hb
      refine ⟨hbd, ?_, ?_, ?_⟩
      · rcases hbmem with hmem | hacc'
        · exact Or.inl (List.mem_cons_of_mem _ hmem)
        · by_cases hd : d ≤ zp.duration
          · cases hacc0 : acc with
            | none =>
              rw [hacc0, zpStep_none_eq d zp hd] at hacc'
              cases hacc'; exact Or.inl (List.mem_cons_self _ _)
            | some a =>
              rw [hacc0, zpStep_some_eq d a zp hd] at hacc'
              cases hacc'
              by_cases hlt : zp.duration < a.duration
              · rw [if_pos hlt]; exact Or.inl (List.mem_cons_self _ _)
              · rw [if_neg hlt]; exact Or.inr rfl
          · rw [zpStep_skip_eq d acc zp hd] at hacc'
            exact Or.inr hacc'
      · intro q hq hdq
        rcases List.mem_cons.mp hq with hq | hq
        · subst hq
          obtain ⟨c, hc, hcq⟩ := hhead hdq
          exact le_trans (hbacc c hc) hcq
        · exact hbmin q hq hdq
      · intro a ha
        obtain ⟨c, hc, hca⟩ := hdrop a ha
        exact le_trans (hbacc c hc) hca

theorem best_zone_price_none (d : Nat) (l : List StationZonePrice)
    (h : best_zone_price d l = none) : ∀ zp ∈ l, zp.duration < d :=
  ((best_zone_price_loop d l none (by intro a ha; cases ha)).1 h).2

theorem best_zone_price_some (d : Nat) (l : List StationZonePrice)
    (b : StationZonePrice) (h : best_zone_price d l = some b) :
    b ∈ l ∧ d ≤ b.duration ∧ ∀ zp ∈ l, d ≤ zp.duration → b.duration ≤ zp.duration := by
  obtain ⟨h1, h2, h3, _⟩ :=
    (best_zone_price_loop d l none (by intro a ha; cases ha)).2 b h
  refine ⟨?_, h1, h3⟩
  rcases h2 with h2 | h2
  · exact h2
  · cases h2

theorem generate_time_slots_length : generate_time_slots.length = 26 := by decide

/-- The snapshot writes `stations × months × 26 × 2` rows, where `months` is
the month enumeration of the capture loop. -/
theorem captureNewRows_length (ext : Nat → Nat → Option ℚ) (db : DB)
    (plan : RadioPlan) :
    (captureNewRows ext db plan).length =
      plan.selected_stations.length *
        ((months_in_plan plan.start_date plan.end_date).length * 52) := by
  unfold captureNewRows
  refine length_flatMap_const _ _ _ fun station _ => ?_
  refine Eq.trans (length_flatMap_const _ _ 52 fun month _ => ?_) rfl
  have h26 := generate_time_slots_length
  calc (generate_time_slots.flatMap fun time_slot =>
          [false, true].map fun is_weekend =>
            capturedRowFor db plan station month
              (get_live_seasonal_index ext station.group_id month) time_slot is_weekend).length
      = generate_time_slots.length * 2 :=
        length_flatMap_const _ _ 2 fun slot _ => by simp
    _ = 52 := by rw [h26]

/-- The create branch of `update_spot_count`, explicitly. -/
theorem update_spot_count_create (db : DB) (plan : RadioPlan)
    (station_id : Nat) (time_slot : String) (spot_date : Date)
    (new_count : Int) (is_weekend_row : Bool)
    (hst : db.stations.any (fun s => s.id == station_id) = true)
    (hne : db.spots.find?
      (spotKey plan.id station_id time_slot spot_date is_weekend_row) = none)
    (hc : 0 < new_count) :
    update_spot_count db plan station_id time_slot spot_date new_count is_weekend_row =
      .saved
        { db with spots := (db.spots ++
            [createdSpot db plan station_id time_slot spot_date new_count is_weekend_row]) }
        (createdSpot db plan station_id time_slot spot_date new_count is_weekend_row) := by
  unfold update_spot_count
  rw [if_pos hst, if_neg (by omega : ¬ new_count ≤ 0), hne]

/-- The update branch of `update_spot_count`: only `spot_count` changes. -/
theorem update_spot_count_update (db : DB) (plan : RadioPlan)
    (station_id : Nat) (time_slot : String) (spot_date : Date)
    (new_count : Int) (is_weekend_row : Bool) (s0 : RadioSpot)
    (hst : db.stations.any (fun s => s.id == station_id) = true)
    (hex : db.spots.find?
      (spotKey plan.id station_id time_slot spot_date is_weekend_row) = some s0)
    (hc : 0 < new_count) :
    update_spot_count db plan station_id time_slot spot_date new_count is_weekend_row =
      .saved
        { db with spots :=
            (updateFirst (spotKey plan.id station_id time_slot spot_date is_weekend_row)
              (fun t => { t with spot_count := new_count }) db.spots) }
        { s0 with spot_count := new_count } := by
  unfold update_spot_count
  rw [if_pos hst, if_neg (by omega : ¬ new_count ≤ 0), hex]

/-- The delete branch of `update_spot_count`. -/
theorem update_spot_count_delete (db : DB) (plan : RadioPlan)
    (station_id : Nat) (time_slot : String) (spot_date : Date)
    (new_count : Int) (is_weekend_row : Bool)
    (hst : db.stations.any (fun s => s.id == station_id) = true)
    (hc : new_count ≤ 0) :
    update_spot_count db plan station_id time_slot spot_date new_count is_weekend_row =
      .removed { db with spots :=
        (removeFirst (spotKey plan.id station_id time_slot spot_date is_weekend_row)
          db.spots) } := by
  unfold update_spot_count
  rw [if_pos hst, if_pos hc]

/-- The create branch with a captured row found, explicitly. -/
theorem createdSpot_captured (db : DB) (plan : RadioPlan) (station_id : Nat)
    (time_slot : String) (spot_date : Date) (new_count : Int)
    (is_weekend_row : Bool) (cd : PlanStationData)
    (hcd : db.plan_station_data.find?
      (capturedKey plan.id station_id time_slot spot_date.isWeekend) = some cd) :
    createdSpot db plan station_id time_slot spot_date new_count is_weekend_row =
      spotFromCaptured plan station_id spot_date time_slot new_count
        is_weekend_row (spotClipDuration plan) cd := by
  unfold createdSpot
  rw [hcd]

/-- The create branch with no captured row, explicitly. -/
theorem createdSpot_defaults (db : DB) (plan : RadioPlan) (station_id : Nat)
    (time_slot : String) (spot_date : Date) (new_count : Int)
    (is_weekend_row : Bool)
    (hcd : db.plan_station_data.find?
      (capturedKey plan.id station_id time_slot spot_date.isWeekend) = none) :
    createdSpot db plan station_id time_slot spot_date new_count is_weekend_row =
      spotFromDefaults plan station_id spot_date time_slot new_count
        is_weekend_row (spotClipDuration plan) := by
  unfold createdSpot
  rw [hcd]

/-- `createdSpot` reads the store only through the captured snapshot. -/
theorem createdSpot_congr (db1 db2 : DB) (plan : RadioPlan)
    (station_id : Nat) (time_slot : String) (spot_date : Date)
    (new_count : Int) (is_weekend_row : Bool)
    (hc : db1.plan_station_data = db2.plan_station_data) :
    createdSpot db1 plan station_id time_slot spot_date new_count is_weekend_row =
      createdSpot db2 plan station_id time_slot spot_date new_count is_weekend_row := by
  unfold createdSpot
  rw [hc]

/-- The spot reported by `update_spot_count` depends only on the stations,
the stored spots and the captured snapshot — not on any live catalog
table. -/
theorem update_spot_count_savedSpot_congr (db1 db2 : DB) (plan : RadioPlan)
    (station_id : Nat) (time_slot : String) (spot_date : Date)
    (new_count : Int) (is_weekend_row : Bool)
    (hs : db1.stations = db2.stations) (hp : db1.spots = db2.spots)
    (hc : db1.plan_station_data = db2.plan_station_data) :
    (update_spot_count db1 plan station_id time_slot spot_date new_count
        is_weekend_row).savedSpot =
      (update_spot_count db2 plan station_id time_slot spot_date new_count
        is_weekend_row).savedSpot := by
  unfold update_spot_count
  rw [hs, hp]
  by_cases h1 : db2.stations.any (fun s => s.id == station_id) = true
  · rw [if_pos h1, if_pos h1]
    by_cases h2 : new_count ≤ 0
    · rw [if_pos h2, if_pos h2]; rfl
    · rw [if_neg h2, if_neg h2]
      cases hfind : db2.spots.find?
          (spotKey plan.id station_id time_slot spot_date is_weekend_row) with
      | some s0 => rfl
      | none =>
        simp only [UpdateOutcome.savedSpot]
        rw [createdSpot_congr db1 db2 plan station_id time_slot spot_date
          new_count is_weekend_row hc]
  · rw [if_neg h1, if_neg h1]

theorem update_station_time_slot_price_fields (db : DB) (sid : Nat)
    (slot : String) (wk : Bool) (price : ℚ) :
    (update_station_time_slot_price db sid slot wk price).stations = db.stations ∧
    (update_station_time_slot_price db sid slot wk price).spots = db.spots ∧
    (update_station_time_slot_price db sid slot wk price).plan_station_data =
      db.plan_station_data := by
  unfold update_station_time_slot_price
  dsimp only
  split <;> exact ⟨rfl, rfl, rfl⟩

theorem update_station_zone_price_fields (db : DB) (sid : Nat) (zone : Char)
    (dur : Nat) (wk : Bool) (price : ℚ) :
    (update_station_zone_price db sid zone dur wk price).stations = db.stations ∧
    (update_station_zone_price db sid zone dur wk price).spots = db.spots ∧
    (update_station_zone_price db sid zone dur wk price).plan_station_data =
      db.plan_station_data := by
  unfold update_station_zone_price
  dsimp only
  split <;> exact ⟨rfl, rfl, rfl⟩

theorem update_station_rating_fields (db : DB) (sid : Nat) (slot : String)
    (wk : Bool) (grp trp : ℚ) :
    (update_station_rating db sid slot wk grp trp).stations = db.stations ∧
    (update_station_rating db sid slot wk grp trp).spots = db.spots ∧
    (update_station_rating db sid slot wk grp trp).plan_station_data =
      db.plan_station_data := by
  unfold update_station_rating
  dsimp only
  split <;> exact ⟨rfl, rfl, rfl⟩

theorem update_seasonal_index_fields (db : DB) (idx : Nat) (v : ℚ) :
    (update_seasonal_index db idx v).stations = db.stations ∧
    (update_seasonal_index db idx v).spots = db.spots ∧
    (update_seasonal_index db idx v).plan_station_data = db.plan_station_data :=
  ⟨rfl, rfl, rfl⟩

/-- Under the station-exists and zone-parse hypotheses, the price endpoint is
the two-stage fallback over `best_zone_price` and the active flat price. -/
theorem get_station_price_for_duration_eq (db : DB) (station_id : Nat)
    (time_slot : String) (duration : Nat) (is_weekend : Bool) (z : Char)
    (hst : db.stations.any (fun s => s.id == station_id) = true)
    (hz : get_zone_for_time_slot time_slot is_weekend = some z) :
    get_station_price_for_duration db station_id time_slot duration is_weekend =
      (match best_zone_price duration (zonePricesFor db station_id z is_weekend) with
       | some zp => some ⟨zp.price, "zone_price"⟩
       | none =>
         match db.station_prices.find? (activeFlatPriceKey station_id time_slot is_weekend) with
         | some p => some ⟨p.price, "station_price_fallback"⟩
         | none => some ⟨0, "not_found"⟩) := by
  unfold get_station_price_for_duration
  rw [if_pos hst, hz]

/-! ### Claims -/

/-- C1: after a plan's snapshot has been captured, editing live catalog data —
a flat time-slot price, a zone price, a rating, or a catalog seasonal index —
leaves every captured `PlanStationData` row of the store unchanged in all
fields, and the spot metrics subsequently computed by the update-count path
from the snapshot are identical to what they would have been without the
edit. -/
theorem catalog_edits_do_not_affect_captured_data
    (db : DB) (plan : RadioPlan)
    (sidP : Nat) (slotP : String) (wkP : Bool) (priceP : ℚ)
    (sidZ : Nat) (zoneZ : Char) (durZ : Nat) (wkZ : Bool) (priceZ : ℚ)
    (sidR : Nat) (slotR : String) (wkR : Bool) (grpR trpR : ℚ)
    (idxS : Nat) (valS : ℚ)
    (station_id : Nat) (time_slot : String) (spot_date : Date)
    (new_count : Int) (is_weekend_row : Bool) :
    ((update_station_time_slot_price db sidP slotP wkP priceP).plan_station_data =
        db.plan_station_data ∧
      (update_spot_count (update_station_time_slot_price db sidP slotP wkP priceP)
          plan station_id time_slot spot_date new_count is_weekend_row).savedSpot =
        (update_spot_count db plan station_id time_slot spot_date new_count
          is_weekend_row).savedSpot) ∧
    ((update_station_zone_price db sidZ zoneZ durZ wkZ priceZ).plan_station_data =
        db.plan_station_data ∧
      (update_spot_count (update_station_zone_price db sidZ zoneZ durZ wkZ priceZ)
          plan station_id time_slot spot_date new_count is_weekend_row).savedSpot =
        (update_spot_count db plan station_id time_slot spot_date new_count
          is_weekend_row).savedSpot) ∧
    ((update_station_rating db sidR slotR wkR grpR trpR).plan_station_data =
        db.plan_station_data ∧
      (update_spot_count (update_station_rating db sidR slotR wkR grpR trpR)
          plan station_id time_slot spot_date new_count is_weekend_row).savedSpot =
        (update_spot_count db plan station_id time_slot spot_date new_count
          is_weekend_row).savedSpot) ∧
    ((update_seasonal_index db idxS valS).plan_station_data = db.plan_station_data ∧
      (update_spot_count (update_seasonal_index db idxS valS)
          plan station_id time_slot spot_date new_count is_weekend_row).savedSpot =
        (update_spot_count db plan station_id time_slot spot_date new_count
          is_weekend_row).savedSpot) := by
  obtain ⟨h1s, h1p, h1c⟩ := update_station_time_slot_price_fields db sidP slotP wkP priceP
  obtain ⟨h2s, h2p, h2c⟩ := update_station_zone_price_fields db sidZ zoneZ durZ wkZ priceZ
  obtain ⟨h3s, h3p, h3c⟩ := update_station_rating_fields db sidR slotR wkR grpR trpR
  obtain ⟨h4s, h4p, h4c⟩ := update_seasonal_index_fields db idxS valS
  exact ⟨⟨h1c, update_spot_count_savedSpot_congr _ _ _ _ _ _ _ _ h1s h1p h1c⟩,
    ⟨h2c, update_spot_count_savedSpot_congr _ _ _ _ _ _ _ _ h2s h2p h2c⟩,
    ⟨h3c, update_spot_count_savedSpot_congr _ _ _ _ _ _ _ _ h3s h3p h3c⟩,
    ⟨h4c, update_spot_count_savedSpot_congr _ _ _ _ _ _ _ _ h4s h4p h4c⟩⟩

/-- C5 (amended): SnapshotCapture writes exactly
`stations × months × time_slots × 2` rows — one per combination even when
the rating is absent or the price is 0 — where `months` is the number of
calendar months in `[start_date, end_date]` counted by the capture loop's
month-by-month walk (with multiplicity across years; for ranges spanning at
most 12 months this equals the number of distinct month numbers touched, and
Dec 20 to Jan 10 enumerates exactly [12, 1]). -/
theorem snapshot_row_count (ext : Nat → Nat → Option ℚ) (db : DB)
    (plan : RadioPlan) :
    ((capture_station_data_for_plan ext db plan).plan_station_data.length =
      db.plan_station_data.length +
        plan.selected_stations.length *
          ((months_in_plan plan.start_date plan.end_date).length *
            (generate_time_slots.length * 2))) ∧
    months_in_plan ⟨2024, 12, 20⟩ ⟨2025, 1, 10⟩ = [12, 1] := by
  constructor
  · show (db.plan_station_data ++ captureNewRows ext db plan).length = _
    rw [List.length_append, captureNewRows_length, generate_time_slots_length]
  · decide

/-- C5 counterexample: for the 13-month plan `planC5` (2024-01-01 to
2025-01-31) the capture writes `1 × 13 × 26 × 2 = 676` rows, while the
claim's formula with `months_spanned` = distinct month numbers (12) predicts
624. -/
theorem snapshot_row_count_counterexample :
    distinctMonthsSpanned planC5.start_date planC5.end_date = 12 ∧
    (capture_station_data_for_plan extNone dbEmpty planC5).plan_station_data.length = 676 ∧
    planC5.selected_stations.length *
      (distinctMonthsSpanned planC5.start_date planC5.end_date *
        (generate_time_slots.length * 2)) = 624 ∧
    (676 : Nat) ≠ 624 := by
  refine ⟨by decide, ?_, by decide, by decide⟩
  show (dbEmpty.plan_station_data ++ captureNewRows extNone dbEmpty planC5).length = 676
  rw [List.length_append, captureNewRows_length]
  decide

/-- C8: among the zone prices for the resolved zone and weekend flag whose
duration is at least the requested duration, `get_station_price_for_duration`
returns the price of one with the smallest such duration, tagged
`zone_price`; with no such row it falls back to the active flat time-slot
price tagged `station_price_fallback`; with neither it returns price 0
tagged `not_found` — and in every case it returns a result rather than
failing.  Concretely, zone prices of 15s/30s/60s answer a request for 25
with the 30s price and a request for 65 with `not_found`. -/
theorem resolve_price_duration_matching (db : DB) (station_id : Nat)
    (time_slot : String) (duration : Nat) (is_weekend : Bool) (z : Char)
    (hst : db.stations.any (fun s => s.id == station_id) = true)
    (hz : get_zone_for_time_slot time_slot is_weekend = some z) :
    ((∃ zp ∈ zonePricesFor db station_id z is_weekend, duration ≤ zp.duration) →
      ∃ zp ∈ zonePricesFor db station_id z is_weekend, duration ≤ zp.duration ∧
        (∀ q ∈ zonePricesFor db station_id z is_weekend,
          duration ≤ q.duration → zp.duration ≤ q.duration) ∧
        get_station_price_for_duration db station_id time_slot duration is_weekend =
          some ⟨zp.price, "zone_price"⟩) ∧
    ((∀ zp ∈ zonePricesFor db station_id z is_weekend, zp.duration < duration) →
      ∀ p, db.station_prices.find? (activeFlatPriceKey station_id time_slot is_weekend) =
          some p →
        get_station_price_for_duration db station_id time_slot duration is_weekend =
          some ⟨p.price, "station_price_fallback"⟩) ∧
    ((∀ zp ∈ zonePricesFor db station_id z is_weekend, zp.duration < duration) →
      db.station_prices.find? (activeFlatPriceKey station_id time_slot is_weekend) = none →
        get_station_price_for_duration db station_id time_slot duration is_weekend =
          some ⟨0, "not_found"⟩) ∧
    (get_station_price_for_duration db station_id time_slot duration is_weekend).isSome = true ∧
    get_station_price_for_duration dbW8 1 "07:00-07:30" 25 false =
      some ⟨20, "zone_price"⟩ ∧
    get_station_price_for_duration dbW8 1 "07:00-07:30" 65 false =
      some ⟨0, "not_found"⟩ := by
  have heq := get_station_price_for_duration_eq db station_id time_slot duration is_weekend z hst hz
  refine ⟨?_, ?_, ?_, ?_, by decide, by decide⟩
  · rintro ⟨zp0, hzp0, hd0⟩
    cases hbest : best_zone_price duration (zonePricesFor db station_id z is_weekend) with
    | none =>
      have := best_zone_price_none duration _ hbest zp0 hzp0
      omega
    | some b =>
      obtain ⟨hmem, hdb, hmin⟩ := best_zone_price_some duration _ b hbest
      refine ⟨b, hmem, hdb, hmin, ?_⟩
      rw [heq, hbest]
  · intro hno p hp
    cases hbest : best_zone_price duration (zonePricesFor db station_id z is_weekend) with
    | none => rw [heq, hbest, hp]
    | some b =>
      obtain ⟨hmem, hdb, _⟩ := best_zone_price_some duration _ b hbest
      have := hno b hmem
      omega
  · intro hno hp
    cases hbest : best_zone_price duration (zonePricesFor db station_id z is_weekend) with
    | none => rw [heq, hbest, hp]
    | some b =>
      obtain ⟨hmem, hdb, _⟩ := best_zone_price_some duration _ b hbest
      have := hno b hmem
      omega
  · rw [heq]
    cases hbest : best_zone_price duration (zonePricesFor db station_id z is_weekend) with
    | none =>
      cases hp : db.station_prices.find? (activeFlatPriceKey station_id time_slot is_weekend) with
      | none => rfl
      | some p => rfl
    | some b => rfl

/-- C8 witness: the duration-matching theorem applied to the concrete store
`dbW8` at time slot 07:00-07:30 (zone A) and duration 25: the result exists,
and the concrete selections evaluate as stated. -/
theorem resolve_price_duration_matching_witness :
    (get_station_price_for_duration dbW8 1 "07:00-07:30" 25 false).isSome = true ∧
    get_station_price_for_duration dbW8 1 "07:00-07:30" 25 false =
      some ⟨20, "zone_price"⟩ := by
  have h := resolve_price_duration_matching dbW8 1 "07:00-07:30" 25 false 'A'
    (by decide) (by decide)
  exact ⟨h.2.2.2.1, h.2.2.2.2.1⟩

/-- C6: discounts apply sequentially: in the captured update-count path the
stored final price is `base_price × seasonal_index × (1 − our/100) ×
(1 − client/100)`, and `RadioSpot.calculate_price` computes its final price
by the same sequential formula from its own resolved base price and seasonal
index. -/
theorem sequential_discounting (db : DB) (plan : RadioPlan) (station_id : Nat)
    (time_slot : String) (spot_date : Date) (new_count : Int)
    (is_weekend_row : Bool) (cd : PlanStationData) (st : RadioStation)
    (spot : RadioSpot) (our_discount client_discount : ℚ)
    (hst : db.stations.any (fun s => s.id == station_id) = true)
    (hne : db.spots.find?
      (spotKey plan.id station_id time_slot spot_date is_weekend_row) = none)
    (hcd : db.plan_station_data.find?
      (capturedKey plan.id station_id time_slot spot_date.isWeekend) = some cd)
    (hc : 0 < new_count) :
    ((update_spot_count db plan station_id time_slot spot_date new_count
        is_weekend_row).savedSpot.map RadioSpot.final_price =
      some (cd.base_price * cd.seasonal_index * (1 - plan.our_discount / 100) *
        (1 - plan.client_discount / 100))) ∧
    ((calculate_price db st spot our_discount client_discount).final_price =
      (calculate_price db st spot our_discount client_discount).base_price *
        (calculate_price db st spot our_discount client_discount).seasonal_index *
        (1 - our_discount / 100) * (1 - client_discount / 100)) := by
  constructor
  · rw [update_spot_count_create db plan station_id time_slot spot_date new_count
      is_weekend_row hst hne hc]
    show some ((createdSpot db plan station_id time_slot spot_date new_count
      is_weekend_row).final_price) = _
    rw [createdSpot_captured db plan station_id time_slot spot_date new_count
      is_weekend_row cd hcd]
    rfl
  · rfl

/-- C6 witness: base price 100, seasonal index 1.2, discounts 10% and 10%
yield a final price of 97.2 = 486/5 (not 96). -/
theorem sequential_discounting_witness :
    (update_spot_count dbW planW 1 "07:00-07:30" dateW 1 false).savedSpot.map
        RadioSpot.final_price = some (486 / 5) ∧ (486 / 5 : ℚ) ≠ 96 := by
  have h := (sequential_discounting dbW planW 1 "07:00-07:30" dateW 1 false cdW
    stationW { plan_id := 5, station_id := 1, date := dateW, time_slot := "07:00-07:30" }
    0 0 rfl rfl rfl (by decide)).1
  rw [h]
  constructor
  · norm_num [cdW, planW]
  · norm_num

/-- C7 counterexample: in the captured update-count path with base price 90,
per-unit trp 5 and count 3 the stored spot has count-scaled trp 15 and
`price_per_trp = 90 / 15 = 6` — the code divides by the scaled trp only,
without the claimed further division by 100 (which would give 0.06), and the
claim's stated value 0.006 matches neither. -/
theorem price_per_trp_counterexample :
    ((update_spot_count dbW7 planW7 1 "07:00-07:30" ⟨2025, 1, 15⟩ 3 false).savedSpot.map
        RadioSpot.trp = some 15) ∧
    ((update_spot_count dbW7 planW7 1 "07:00-07:30" ⟨2025, 1, 15⟩ 3 false).savedSpot.map
        RadioSpot.base_price = some 90) ∧
    ((update_spot_count dbW7 planW7 1 "07:00-07:30" ⟨2025, 1, 15⟩ 3 false).savedSpot.map
        RadioSpot.price_per_trp = some 6) ∧
    (6 : ℚ) ≠ 90 / 15 / 100 ∧ (6 : ℚ) ≠ 6 / 1000 := by
  rw [update_spot_count_create dbW7 planW7 1 "07:00-07:30" ⟨2025, 1, 15⟩ 3 false rfl rfl
      (by decide),
    createdSpot_captured dbW7 planW7 1 "07:00-07:30" ⟨2025, 1, 15⟩ 3 false cdW7 rfl]
  refine ⟨?_, ?_, ?_, by norm_num, by norm_num⟩ <;>
    · show some _ = some _
      norm_num [spotFromCaptured, cdW7]

/-- C7 (amended): in the captured update-count path, when the count-scaled
trp is positive the stored `price_per_trp` is the un-scaled unit base price
divided by the count-scaled trp, with no further division by 100 (90, count
3, unit trp 5 gives 6), and it is 0 when the scaled trp is not positive; the
`/100` variant lives only in `RadioSpot.calculate_price` (the live path),
where it gives `base_price / trp / 100` (0.06 for those numbers, not
0.006). -/
theorem price_per_trp_amended (db : DB) (plan : RadioPlan) (station_id : Nat)
    (time_slot : String) (spot_date : Date) (new_count : Int)
    (is_weekend_row : Bool) (cd : PlanStationData) (st : RadioStation)
    (spot : RadioSpot) (our_discount client_discount : ℚ)
    (hst : db.stations.any (fun s => s.id == station_id) = true)
    (hne : db.spots.find?
      (spotKey plan.id station_id time_slot spot_date is_weekend_row) = none)
    (hcd : db.plan_station_data.find?
      (capturedKey plan.id station_id time_slot spot_date.isWeekend) = some cd)
    (hc : 0 < new_count) :
    ((update_spot_count db plan station_id time_slot spot_date new_count
        is_weekend_row).savedSpot.map RadioSpot.price_per_trp =
      some (if cd.trp * (new_count : ℚ) > 0 then
        cd.base_price / (cd.trp * (new_count : ℚ)) else 0)) ∧
    (spot.trp > 0 →
      (calculate_price db st spot our_discount client_discount).price_per_trp =
        (calculate_price db st spot our_discount client_discount).base_price /
          spot.trp / 100) := by
  constructor
  · rw [update_spot_count_create db plan station_id time_slot spot_date new_count
      is_weekend_row hst hne hc]
    show some ((createdSpot db plan station_id time_slot spot_date new_count
      is_weekend_row).price_per_trp) = _
    rw [createdSpot_captured db plan station_id time_slot spot_date new_count
      is_weekend_row cd hcd]
    rfl
  · intro h
    show (if spot.trp > 0 then
        get_current_price db st.id spot.time_slot spot.date.isWeekend / spot.trp / 100
      else spot.price_per_trp) = _
    rw [if_pos h]
    rfl

/-- C7 witness: the amended statement at the concrete 90/5/count-3 input:
the stored value is 90/15 = 6, and the live-path formula gives 0.06. -/
theorem price_per_trp_amended_witness :
    ((update_spot_count dbW7 planW7 1 "07:00-07:30" ⟨2025, 1, 15⟩ 3 false).savedSpot.map
        RadioSpot.price_per_trp =
      some (if cdW7.trp * (3 : ℚ) > 0 then cdW7.base_price / (cdW7.trp * (3 : ℚ)) else 0)) ∧
    (90 / 15 / 100 : ℚ) = 6 / 100 := by
  have h := (price_per_trp_amended dbW7 planW7 1 "07:00-07:30" ⟨2025, 1, 15⟩ 3 false
    cdW7 stationW
    { plan_id := 7, station_id := 1, date := ⟨2025, 1, 15⟩, time_slot := "07:00-07:30" }
    0 0 rfl rfl rfl (by decide)).1
  exact ⟨h, by norm_num⟩

/-- C9 counterexample: with no captured rows but live data present (an active
rating with grp 3 and an active flat price 50 for the very slot), the
update-count path stores the spot with all-zero metrics instead of falling
back to live resolution. -/
theorem live_fallback_counterexample :
    dbW9.plan_station_data = [] ∧
    dbW9.ratings.find? (fun r => r.station_id == 1 && r.time_slot == "07:00-07:30" &&
      r.target_audience == "All" && r.is_weekend == false && r.is_active) = some ratingW9 ∧
    ratingW9.grp = 3 ∧ flatW9.price = 50 ∧ flatW9.is_active = true ∧
    ((update_spot_count dbW9 planW9 1 "07:00-07:30" ⟨2025, 1, 15⟩ 2 false).savedSpot.map
        RadioSpot.grp = some 0) ∧
    ((update_spot_count dbW9 planW9 1 "07:00-07:30" ⟨2025, 1, 15⟩ 2 false).savedSpot.map
        RadioSpot.base_price = some 0) ∧
    ((update_spot_count dbW9 planW9 1 "07:00-07:30" ⟨2025, 1, 15⟩ 2 false).savedSpot.map
        RadioSpot.final_price = some 0) ∧
    (3 : ℚ) ≠ 0 := by
  rw [update_spot_count_create dbW9 planW9 1 "07:00-07:30" ⟨2025, 1, 15⟩ 2 false rfl rfl
      (by decide),
    createdSpot_defaults dbW9 planW9 1 "07:00-07:30" ⟨2025, 1, 15⟩ 2 false rfl]
  exact ⟨rfl, rfl, rfl, rfl, rfl, rfl, rfl, rfl, by norm_num⟩

/-- C9 (amended): in the update-count path, when no captured row matches the
(plan, station, slot, weekend) key, the spot is stored with zero grp, trp,
affinity, base price, final price and price-per-trp and seasonal index 1.0,
regardless of what live catalog data exists; live resolution happens only in
the separate add-spot path. -/
theorem missing_captured_zero_metrics (db : DB) (plan : RadioPlan)
    (station_id : Nat) (time_slot : String) (spot_date : Date)
    (new_count : Int) (is_weekend_row : Bool)
    (hst : db.stations.any (fun s => s.id == station_id) = true)
    (hne : db.spots.find?
      (spotKey plan.id station_id time_slot spot_date is_weekend_row) = none)
    (hcd : db.plan_station_data.find?
      (capturedKey plan.id station_id time_slot spot_date.isWeekend) = none)
    (hc : 0 < new_count) :
    (update_spot_count db plan station_id time_slot spot_date new_count
        is_weekend_row).savedSpot.map RadioSpot.grp = some 0 ∧
    (update_spot_count db plan station_id time_slot spot_date new_count
        is_weekend_row).savedSpot.map RadioSpot.trp = some 0 ∧
    (update_spot_count db plan station_id time_slot spot_date new_count
        is_weekend_row).savedSpot.map RadioSpot.affinity = some 0 ∧
    (update_spot_count db plan station_id time_slot spot_date new_count
        is_weekend_row).savedSpot.map RadioSpot.base_price = some 0 ∧
    (update_spot_count db plan station_id time_slot spot_date new_count
        is_weekend_row).savedSpot.map RadioSpot.seasonal_index = some 1 ∧
    (update_spot_count db plan station_id time_slot spot_date new_count
        is_weekend_row).savedSpot.map RadioSpot.final_price = some 0 ∧
    (update_spot_count db plan station_id time_slot spot_date new_count
        is_weekend_row).savedSpot.map RadioSpot.price_per_trp = some 0 := by
  rw [update_spot_count_create db plan station_id time_slot spot_date new_count
    is_weekend_row hst hne hc,
    createdSpot_defaults db plan station_id time_slot spot_date new_count
      is_weekend_row hcd]
  exact ⟨rfl, rfl, rfl, rfl, rfl, rfl, rfl⟩

/-- C9 witness: the amended zero-metrics statement at a concrete store that
has live rating and price data but no captured rows. -/
theorem missing_captured_zero_metrics_witness :
    (update_spot_count dbW9 planW9 1 "07:00-07:30" ⟨2025, 1, 15⟩ 2 false).savedSpot.map
        RadioSpot.grp = some 0 ∧
    (update_spot_count dbW9 planW9 1 "07:00-07:30" ⟨2025, 1, 15⟩ 2 false).savedSpot.map
        RadioSpot.seasonal_index = some 1 := by
  have h := missing_captured_zero_metrics dbW9 planW9 1 "07:00-07:30" ⟨2025, 1, 15⟩ 2
    false rfl rfl rfl (by decide)
  exact ⟨h.1, h.2.2.2.2.1⟩

/-- A created spot always carries the requested count. -/
theorem createdSpot_spot_count (db : DB) (plan : RadioPlan) (station_id : Nat)
    (time_slot : String) (spot_date : Date) (new_count : Int)
    (is_weekend_row : Bool) :
    (createdSpot db plan station_id time_slot spot_date new_count
      is_weekend_row).spot_count = new_count := by
  unfold createdSpot
  cases db.plan_station_data.find?
      (capturedKey plan.id station_id time_slot spot_date.isWeekend) with
  | none => rfl
  | some cd => rfl

/-- C10 (amended): via the update-count operation, a non-positive count
deletes the first spot with the natural key; after any update-count
operation every persisted spot still has a positive count (provided all did
before); and recreating a spot on a key with no stored row computes every
derived field from the captured snapshot row alone, never from a previously
deleted row's values.  (The separate add-spot endpoint, by contrast, stores
whatever count it is given, including 0 — see the counterexample.) -/
theorem spot_count_positivity_and_fresh_recreation (db : DB)
    (plan : RadioPlan) (station_id : Nat) (time_slot : String)
    (spot_date : Date) (new_count : Int) (is_weekend_row : Bool)
    (cd : PlanStationData)
    (hall : allPositiveCounts db.spots = true)
    (hst : db.stations.any (fun s => s.id == station_id) = true) :
    (Option.all (fun db' => allPositiveCounts db'.spots)
      (update_spot_count db plan station_id time_slot spot_date new_count
        is_weekend_row).newDB = true) ∧
    (new_count ≤ 0 →
      update_spot_count db plan station_id time_slot spot_date new_count
          is_weekend_row =
        .removed { db with spots :=
          (removeFirst (spotKey plan.id station_id time_slot spot_date is_weekend_row)
            db.spots) }) ∧
    (db.spots.find? (spotKey plan.id station_id time_slot spot_date is_weekend_row) =
        none →
      db.plan_station_data.find?
          (capturedKey plan.id station_id time_slot spot_date.isWeekend) = some cd →
      0 < new_count →
      ((update_spot_count db plan station_id time_slot spot_date new_count
          is_weekend_row).savedSpot.map RadioSpot.grp =
        some (cd.grp * (new_count : ℚ))) ∧
      ((update_spot_count db plan station_id time_slot spot_date new_count
          is_weekend_row).savedSpot.map RadioSpot.trp =
        some (cd.trp * (new_count : ℚ))) ∧
      ((update_spot_count db plan station_id time_slot spot_date new_count
          is_weekend_row).savedSpot.map RadioSpot.affinity = some cd.affinity) ∧
      ((update_spot_count db plan station_id time_slot spot_date new_count
          is_weekend_row).savedSpot.map RadioSpot.base_price = some cd.base_price) ∧
      ((update_spot_count db plan station_id time_slot spot_date new_count
          is_weekend_row).savedSpot.map RadioSpot.seasonal_index =
        some cd.seasonal_index)) := by
  have hallP : ∀ s ∈ db.spots, 0 < s.spot_count := by
    simp only [allPositiveCounts, List.all_eq_true, decide_eq_true_eq] at hall
    exact hall
  refine ⟨?_, ?_, ?_⟩
  · by_cases hle : new_count ≤ 0
    · rw [update_spot_count_delete db plan station_id time_slot spot_date new_count
        is_weekend_row hst hle]
      simp only [UpdateOutcome.newDB, Option.all]
      simp only [allPositiveCounts, List.all_eq_true, decide_eq_true_eq]
      intro s hs
      exact hallP s (mem_removeFirst hs)
    · have hpos : 0 < new_count := by omega
      cases hex : db.spots.find?
          (spotKey plan.id station_id time_slot spot_date is_weekend_row) with
      | some s0 =>
        rw [update_spot_count_update db plan station_id time_slot spot_date new_count
          is_weekend_row s0 hst hex hpos]
        simp only [UpdateOutcome.newDB, Option.all]
        simp only [allPositiveCounts, List.all_eq_true, decide_eq_true_eq]
        intro s hs
        rcases mem_updateFirst hs with h1 | ⟨y, _, hyeq⟩
        · exact hallP s h1
        · rw [hyeq]; exact hpos
      | none =>
        rw [update_spot_count_create db plan station_id time_slot spot_date new_count
          is_weekend_row hst hex hpos]
        simp only [UpdateOutcome.newDB, Option.all]
        simp only [allPositiveCounts, List.all_eq_true, decide_eq_true_eq]
        intro s hs
        rcases List.mem_append.mp hs with h1 | h1
        · exact hallP s h1
        · rcases List.mem_singleton.mp h1 with h2
          rw [h2, createdSpot_spot_count]
          exact hpos
  · intro hle
    exact update_spot_count_delete db plan station_id time_slot spot_date new_count
      is_weekend_row hst hle
  · intro hne hcd hpos
    rw [update_spot_count_create db plan station_id time_slot spot_date new_count
      is_weekend_row hst hne hpos,
      createdSpot_captured db plan station_id time_slot spot_date new_count
        is_weekend_row cd hcd]
    exact ⟨rfl, rfl, rfl, rfl, rfl⟩

/-- C10 witness: on the concrete store `dbW` (no spots, snapshot present)
a delete request keeps every stored count positive, and a fresh positive
count computes grp from the snapshot row scaled by the new count. -/
theorem spot_count_positivity_witness :
    (Option.all (fun db' => allPositiveCounts db'.spots)
      (update_spot_count dbW planW 1 "07:00-07:30" dateW (-2) false).newDB = true) ∧
    ((update_spot_count dbW planW 1 "07:00-07:30" dateW 4 false).savedSpot.map
      RadioSpot.grp = some (cdW.grp * (4 : ℚ))) := by
  refine ⟨(spot_count_positivity_and_fresh_recreation dbW planW 1 "07:00-07:30" dateW
      (-2) false cdW rfl rfl).1, ?_⟩
  exact ((spot_count_positivity_and_fresh_recreation dbW planW 1 "07:00-07:30" dateW
      4 false cdW rfl rfl).2.2 rfl rfl (by decide)).1

/-- C10 counterexample: the add-spot endpoint persists a spot with count 0
(and would equally persist a negative count), so "after any spot operation
no persisted spot has spot_count ≤ 0" fails as stated. -/
theorem zero_count_add_spot_counterexample :
    ((add_spot dbW9 planW9 1 ⟨2025, 1, 15⟩ "07:00-07:30" 0 30).map
        (fun r => r.2.spot_count) = some 0) ∧
    ((add_spot dbW9 planW9 1 ⟨2025, 1, 15⟩ "07:00-07:30" 0 30).map
        (fun r => r.1.spots.length) = some 1) ∧
    ((add_spot dbW9 planW9 1 ⟨2025, 1, 15⟩ "07:00-07:30" 0 30).map
        (fun r => allPositiveCounts r.1.spots) = some false) := by
  refine ⟨rfl, rfl, rfl⟩

/-- C2 evaluated at the failing input: the captured-data lookup of the
update-count path filters only by (plan, station, time_slot, weekend) and
takes the first row, so for the two-month plan 2 a spot dated 2025-02-04
(month 2) takes its seasonal index from the January row (1.1) instead of the
February row (0.95). -/
theorem captured_lookup_ignores_month :
    (Date.mk 2025 2 4).month = 2 ∧
    (Date.mk 2025 2 4).isWeekend = false ∧
    cdFeb.month = 2 ∧ cdFeb.seasonal_index = 19 / 20 ∧ cdJan.month = 1 ∧
    ((update_spot_count dbC2 planC2 1 "07:00-07:30" ⟨2025, 2, 4⟩ 2 false).savedSpot.map
        RadioSpot.seasonal_index = some (11 / 10)) ∧
    (11 / 10 : ℚ) ≠ 19 / 20 := by
  rw [update_spot_count_create dbC2 planC2 1 "07:00-07:30" ⟨2025, 2, 4⟩ 2 false rfl rfl
      (by decide),
    createdSpot_captured dbC2 planC2 1 "07:00-07:30" ⟨2025, 2, 4⟩ 2 false cdJan rfl]
  exact ⟨rfl, rfl, rfl, rfl, rfl, rfl, by norm_num⟩

/-- C4 evaluated at the failing input: updating an existing spot's count from
1 to 3 mutates only `spot_count`; grp stays 2 (the count-1 value) instead of
the captured per-unit grp 2 scaled to 6, and final_price keeps its old value
110. -/
theorem stale_metrics_on_count_update :
    spotC4.grp = 2 ∧ cdJan.grp = 2 ∧
    ((update_spot_count dbC4 planC2 1 "07:00-07:30" ⟨2025, 1, 15⟩ 3 false).savedSpot.map
        RadioSpot.spot_count = some 3) ∧
    ((update_spot_count dbC4 planC2 1 "07:00-07:30" ⟨2025, 1, 15⟩ 3 false).savedSpot.map
        RadioSpot.grp = some 2) ∧
    ((update_spot_count dbC4 planC2 1 "07:00-07:30" ⟨2025, 1, 15⟩ 3 false).savedSpot.map
        RadioSpot.final_price = some 110) ∧
    ((update_spot_count dbC4 planC2 1 "07:00-07:30" ⟨2025, 1, 15⟩ 3 false).newDB.map
        DB.spots = some [{ spotC4 with spot_count := 3 }]) ∧
    (2 : ℚ) ≠ 2 * 3 := by
  rw [update_spot_count_update dbC4 planC2 1 "07:00-07:30" ⟨2025, 1, 15⟩ 3 false spotC4
      rfl rfl (by decide)]
  exact ⟨rfl, rfl, rfl, rfl, rfl, rfl, by norm_num⟩

/-- C3 (amended): every row SnapshotCapture writes takes its seasonal index
solely from the external seasonal-adjustment service value for (the
station's group, the row's month), defaulting to 1.0 on any failure; the
stored SeasonalIndex table is never consulted — capture over a store with
any other stored seasonal indices writes identical rows. -/
theorem snapshot_seasonal_from_external_only (ext : Nat → Nat → Option ℚ)
    (db : DB) (plan : RadioPlan) (l : List SeasonalIndexRow)
    (r : PlanStationData) (hr : r ∈ captureNewRows ext db plan) :
    (∃ s ∈ plan.selected_stations, r.station_id = s.id ∧
      r.seasonal_index = get_live_seasonal_index ext s.group_id r.month) ∧
    captureNewRows ext { db with seasonal_indices := l } plan =
      captureNewRows ext db plan := by
  constructor
  · unfold captureNewRows at hr
    simp only [List.mem_flatMap, List.mem_map] at hr
    obtain ⟨station, hs, month, hm, slot, hslot, wk, hwk, hrow⟩ := hr
    refine ⟨station, hs, ?_, ?_⟩
    · rw [← hrow]; rfl
    · rw [← hrow]; rfl
  · rfl

/-- C3 witness: for the one-day plan `planC3w` and a down external service,
the first captured row is `rowC3w`; stored seasonal rows ([siJan] here) do
not change capture's output, and the row's index is the external-service
default 1.0. -/
theorem snapshot_seasonal_from_external_only_witness :
    captureNewRows extNone { dbEmpty with seasonal_indices := [siJan] } planC3w =
      captureNewRows extNone dbEmpty planC3w ∧
    rowC3w.seasonal_index = get_live_seasonal_index extNone stationW.group_id rowC3w.month := by
  have h := snapshot_seasonal_from_external_only extNone dbEmpty planC3w [siJan] rowC3w
    (by decide)
  exact ⟨h.2, rfl⟩

/-- C3 counterexample: with the stored January group index 1.1 (and a stored
global February index 0.95) but the external service unreachable, the §8
plan's first captured row is a January row with seasonal index 1.0 — not the
1.1 the claimed resolution chain requires. -/
theorem snapshot_seasonal_chain_counterexample :
    siJan.month = 1 ∧ siJan.group_id = some stationW.group_id ∧
    siJan.is_active = true ∧ siJan.index_value = 11 / 10 ∧
    dbC3.seasonal_indices = [siJan, siFebGlobal] ∧
    planC3.selected_stations = [stationW] ∧
    ((captureNewRows extNone dbC3 planC3).head?.map PlanStationData.month = some 1) ∧
    ((captureNewRows extNone dbC3 planC3).head?.map PlanStationData.seasonal_index =
      some 1) ∧
    (1 : ℚ) ≠ 11 / 10 := by
  exact ⟨rfl, rfl, rfl, rfl, rfl, rfl, rfl, rfl, by norm_num⟩

end RadioPlanning
